import Mathlib

/-!
Verification of the capability-registration core of a NestJS MCP server
(`mcp.service.ts`): parameter-schema normalization, the wrapped handlers
installed for resources / tools / prompts, registration-time validation,
the two HTTP endpoint handlers, and shutdown ordering.

The TypeScript source is shallowly embedded: JS runtime values that flow
through the relevant code paths are modelled as inductive types, JS
exceptions as `Except`, and the effectful shutdown / endpoint code as
pure functions producing explicit event traces.
-/

set_option autoImplicit false

deriving instance DecidableEq for Except

namespace NestjsMcp

/-- The JS test `value.endsWith("?")` for a one-character suffix:
true when the last character of the string is `?`. -/
def endsWithQuestionMark (s : String) : Bool :=
  s.data.getLast? = some '?'

/-- The JS expression `value.slice(0, -1)`: the string without its last
character. -/
def sliceDropLast (s : String) : String :=
  String.mk s.data.dropLast

/-- Zod validators produced by `getZodSchemaForType` and accepted as
`z.ZodType` parameter declarations: `z.string()`, `z.number()`,
`z.boolean()`, `z.array(z.any())`, `z.record(z.string(), z.any())`,
`z.any()`, and `schema.optional()`. -/
inductive ZodType where
  | string
  | number
  | boolean
  | array (elem : ZodType)
  | record (dom cod : ZodType)
  | any
  | optional (inner : ZodType)
deriving DecidableEq, Repr

/-- Errors thrown by the registration / handler-wrapping code.
The source throws plain `Error` objects with an interpolated message;
we record the error kind named by the spec taxonomy together with the
capability name the message interpolates.  `typeError` models a JS
`TypeError` raised by calling a method on a value that lacks it. -/
inductive McpError where
  | invalidCapabilityDefinition (capability : String)
  | handlerContractViolation (capability : String)
  | typeError
deriving DecidableEq, Repr

/-- The `type` field of a parameter-definition object
(`ParameterDefinition.type : SimpleParameterType | z.ZodType`).  At
runtime the field can hold anything; `num n` stands for a value (here a
number such as `42`) that is neither a string nor a Zod schema and in
particular has no `optional` method. -/
inductive TypeField where
  | name (s : String)
  | zodSchema (z : ZodType)
  | num (n : Int)
deriving DecidableEq, Repr

/-- A JS value supplied as one parameter declaration, discriminated the
way `convertParametersToZod` discriminates: strings, objects having a
`type` property (`defObj t opt`, where `opt` records whether the
object's `optional` field is strictly equal to `true`), other objects
that are Zod schemas, other objects that are not (`plainObj`), and
non-string non-object values that fall through to the `z.any()`
fallback. -/
inductive PDecl where
  | str (s : String)
  | defObj (t : TypeField) (opt : Bool)
  | zodSchema (z : ZodType)
  | plainObj
  | num (n : Int)
  | boolV (b : Bool)
  | nullV
  | undef
deriving DecidableEq, Repr

/-- What `convertParametersToZod` stores in `zodSchema[key]`: a real Zod
validator, or (on the duck-typed paths that cast without checking) a
non-schema value stored verbatim. -/
inductive StoredVal where
  | zod (z : ZodType)
  | rawNum (n : Int)
  | rawObj
deriving DecidableEq, Repr

/-- `getZodSchemaForType`: maps a primitive-type name to its validator;
unknown names are logged and default to `z.any()`. -/
def getZodSchemaForType (t : String) : ZodType :=
  if t = "string" then .string
  else if t = "number" then .number
  else if t = "boolean" then .boolean
  else if t = "array" then .array .any
  else if t = "object" then .record .string .any
  else .any

/-- The JS expression `schema.optional()`.  On a real Zod schema it
wraps the schema; on any other value the property access yields
`undefined` and the call throws a `TypeError`. -/
def callOptional : StoredVal → Except McpError StoredVal
  | .zod z => .ok (.zod (.optional z))
  | .rawNum _ => .error .typeError
  | .rawObj => .error .typeError

/-- Body of the `convertParametersToZod` loop for one declaration value:
computes the `(schema, isOptional)` pair along the if/else chain of the
source, then evaluates `isOptional ? schema.optional() : schema`. -/
def convertParameterValue (value : PDecl) : Except McpError StoredVal :=
  let pair : StoredVal × Bool :=
    match value with
    | .str s =>
        if endsWithQuestionMark s then
          (.zod (getZodSchemaForType (sliceDropLast s)), true)
        else
          (.zod (getZodSchemaForType s), false)
    | .defObj t opt =>
        (match t with
         | .name s => .zod (getZodSchemaForType s)
         | .zodSchema z => .zod z
         | .num n => .rawNum n,
         opt)
    | .zodSchema z => (.zod z, false)
    | .plainObj => (.rawObj, false)
    | .num _ => (.zod .any, false)
    | .boolV _ => (.zod .any, false)
    | .nullV => (.zod .any, false)
    | .undef => (.zod .any, false)
  if pair.2 then callOptional pair.1 else .ok pair.1

/-- `convertParametersToZod` over a whole parameter record: each entry is
converted in order; a thrown `TypeError` aborts the function. -/
def convertParametersToZod : List (String × PDecl) →
    Except McpError (List (String × StoredVal))
  | [] => .ok []
  | kv :: rest =>
    match convertParameterValue kv.2 with
    | .error e => .error e
    | .ok s =>
      match convertParametersToZod rest with
      | .error e => .error e
      | .ok tail => .ok ((kv.1, s) :: tail)

/-- The spec's `ParameterSpec` view of one normalized parameter: its
base kind and whether it is required. -/
structure ParameterSpec where
  kind : ZodType
  required : Bool
deriving DecidableEq, Repr

/-- Spec-side view, following the spec's ParameterSpec data model (not
the source): the parameter spec described by a stored validator — an
`optional` wrapper means `required = false`, anything else is required;
a stored non-schema value describes no spec. -/
def specOfStored : StoredVal → Option ParameterSpec
  | .zod (.optional z) => some ⟨z, false⟩
  | .zod z => some ⟨z, true⟩
  | .rawNum _ => none
  | .rawObj => none

/-- A non-array JS value as seen by the handler wrappers (`nan` is the
number `NaN`; `obj` is a plain object, whose fields are irrelevant to
the wrappers since they never inspect them). -/
inductive JsPrim where
  | nullV
  | undef
  | nan
  | num (n : Int)
  | str (s : String)
  | boolV (b : Bool)
  | obj
deriving DecidableEq, Repr

/-- A JS value returned by a decorated handler method: a non-array value
or an array of such values. -/
inductive RVal where
  | prim (p : JsPrim)
  | arr (es : List JsPrim)
deriving DecidableEq, Repr

/-- JS truthiness: `!result` is true exactly on the falsy values
`null`, `undefined`, `NaN`, `0`, the empty string and `false`; every
array (even an empty one) is truthy. -/
def jsFalsy : RVal → Bool
  | .prim .nullV => true
  | .prim .undef => true
  | .prim .nan => true
  | .prim (.num n) => n == 0
  | .prim (.str s) => s == ""
  | .prim (.boolV b) => !b
  | .prim .obj => false
  | .arr _ => false

/-- The JS coercion `String(result)` on a non-array value: numbers print
in decimal, `String` of a plain object is the string
`[object Object]`. -/
def jsToString : JsPrim → String
  | .nullV => "null"
  | .undef => "undefined"
  | .nan => "NaN"
  | .num n => toString n
  | .str s => s
  | .boolV b => if b then "true" else "false"
  | .obj => "[object Object]"

/-- One element of the `content` list a registered tool returns to the
sink: either an element of an array result passed through unchanged, or
the object with a `type` field holding `text` and a `text` field that
the wrapper builds for a non-array result. -/
inductive ContentVal where
  | passthrough (p : JsPrim)
  | textEntry (text : String)
deriving DecidableEq, Repr

/-- The result-conversion step of the handler wrapper that
`registerTool` installs, applied to the value the decorated method
returned: a strict `null`/`undefined` check, then
`Array.isArray(result) ? result : [...String(result)...]`. -/
def wrapToolResult (name : String) (result : RVal) : Except McpError (List ContentVal) :=
  if result == .prim .nullV || result == .prim .undef then
    .error (.handlerContractViolation name)
  else
    match result with
    | .arr es => .ok (es.map ContentVal.passthrough)
    | .prim p => .ok [.textEntry (jsToString p)]

/-- The result-conversion step of the handler wrapper that
`registerResource` installs: a truthiness check `if (!result)`, then
`contents: Array.isArray(result) ? result : [result]`. -/
def wrapResourceResult (name : String) (result : RVal) : Except McpError (List JsPrim) :=
  if jsFalsy result then
    .error (.handlerContractViolation name)
  else
    match result with
    | .arr es => .ok es
    | .prim p => .ok [p]

/-- A JS object as an ordered association list of own enumerable
properties (keys unique at runtime). -/
abbrev JsObj : Type := List (String × JsPrim)

/-- Property access `o[k]`: the value at the first entry with key `k`,
if any. -/
def jsLookup (o : JsObj) (k : String) : Option JsPrim :=
  (o.find? (fun kv => kv.1 == k)).map (fun kv => kv.2)

/-- The JS object literal with two spreads, as in the prompt wrapper:
keys of `a` keep their position but take the value from `b` when `b`
also has the key; keys only in `b` are appended in order; on every
shared key the value from `b` wins. -/
def spreadMerge (a b : JsObj) : JsObj :=
  a.map (fun kv =>
    match jsLookup b kv.1 with
    | some v => (kv.1, v)
    | none => kv)
  ++ b.filter (fun kv => (jsLookup a kv.1).isNone)

/-- The handler wrapper that `registerPrompt` installs: calls the
decorated method with the caller-supplied params (`none` models a
`null`/`undefined` return) and returns the object literal spreading
`params` first and the returned fields second, the latter defaulting to
the empty object. -/
def wrapPromptResult (dynamicParams : Option JsObj) (params : JsObj) : JsObj :=
  spreadMerge params (dynamicParams.getD [])

/-- `IResource` metadata attached by the `@Resource` decorator. -/
structure IResourceMeta where
  name : String
  description : String
  parameters : Option (List (String × PDecl))
  uriTemplate : Option String
deriving DecidableEq, Repr

/-- `ITool` metadata attached by the `@Tool` decorator. -/
structure IToolMeta where
  name : String
  description : String
  parameters : Option (List (String × PDecl))
deriving DecidableEq, Repr

/-- `IPrompt` metadata attached by the `@Prompt` decorator. -/
structure IPromptMeta where
  name : String
  description : String
  template : String
  parameters : Option (List (String × PDecl))
deriving DecidableEq, Repr

/-- The template-string computation of `registerResource`:
`uriTemplate || name://...` with the JS truthiness of `||`, so a
missing or empty custom template falls back to the default. -/
def resourceTemplateString (m : IResourceMeta) : String :=
  match m.uriTemplate with
  | some s => if s == "" then m.name ++ "://{id}" else s
  | none => m.name ++ "://{id}"

/-- The registration-time (synchronous) part of `registerResource`: it
performs no structural validation of its own — it computes the template
string, converts the declared parameters, and hands both to the sink.
A throw escaping `convertParametersToZod` aborts the registration. -/
def registerResource (m : IResourceMeta) :
    Except McpError (String × List (String × StoredVal)) :=
  match m.parameters with
  | some ps => (convertParametersToZod ps).map (fun z => (resourceTemplateString m, z))
  | none => .ok (resourceTemplateString m, [])

/-- The registration-time part of `registerTool`: no structural
validation; the schema is the converted parameters or the empty
object. -/
def registerTool (m : IToolMeta) : Except McpError (List (String × StoredVal)) :=
  match m.parameters with
  | some ps => convertParametersToZod ps
  | none => .ok []

/-- The JS `template.trim()` (leading and trailing whitespace
removed). -/
def jsTrim (s : String) : String :=
  String.mk (((s.data.dropWhile Char.isWhitespace).reverse.dropWhile Char.isWhitespace).reverse)

/-- The registration-time part of `registerPrompt`: throws on an empty
or whitespace-only template (`!template || template.trim() === ''`)
before converting the declared parameters. -/
def registerPrompt (m : IPromptMeta) : Except McpError (List (String × StoredVal)) :=
  if m.template == "" || jsTrim m.template == "" then
    .error (.invalidCapabilityDefinition m.name)
  else
    match m.parameters with
    | some ps => convertParametersToZod ps
    | none => .ok []

/-- Observable events of `onModuleDestroy`: close attempts on the three
kinds of resource, and the error-log calls of the `catch` blocks. -/
inductive SEvent where
  | closeStdioAttempt
  | stdioCloseErrorLogged
  | closeTransportAttempt (i : Nat)
  | transportCloseErrorLogged (i : Nat)
  | adapterCleanupErrorLogged
  | closeServerAttempt
  | serverCloseErrorLogged
deriving DecidableEq, Repr

/-- Failure model for one shutdown run: which of the awaited close
operations (and the `getActiveTransports` call) throw. -/
structure ShutdownConfig where
  stdioPresent : Bool
  stdioCloseFails : Bool
  adapterPresent : Bool
  getTransportsFails : Bool
  transportCloseFails : List Bool
  serverCloseFails : Bool
deriving DecidableEq, Repr

/-- The `for (const transport of activeTransports)` loop: each close is
attempted inside its own try/catch, so one failure never stops the
loop. -/
def closeTransportsLoop : Nat → List Bool → List SEvent
  | _, [] => []
  | i, f :: fs =>
    SEvent.closeTransportAttempt i ::
      ((if f then [SEvent.transportCloseErrorLogged i] else []) ++
        closeTransportsLoop (i + 1) fs)

/-- `onModuleDestroy` as an event trace: the stdio block (guarded by its
own try/catch), then the SSE-adapter block (whose `getActiveTransports`
call may itself throw, caught by the enclosing try/catch), then the
`server.close()` block. -/
def onModuleDestroy (c : ShutdownConfig) : List SEvent :=
  (if c.stdioPresent then
    SEvent.closeStdioAttempt ::
      (if c.stdioCloseFails then [SEvent.stdioCloseErrorLogged] else [])
  else []) ++
  (if c.adapterPresent then
    if c.getTransportsFails then [SEvent.adapterCleanupErrorLogged]
    else closeTransportsLoop 0 c.transportCloseFails
  else []) ++
  (SEvent.closeServerAttempt ::
    (if c.serverCloseFails then [SEvent.serverCloseErrorLogged] else []))

/-- Whether an event is a close attempt (as opposed to an error log). -/
def isAttempt : SEvent → Bool
  | .closeStdioAttempt => true
  | .stdioCloseErrorLogged => false
  | .closeTransportAttempt _ => true
  | .transportCloseErrorLogged _ => false
  | .adapterCleanupErrorLogged => false
  | .closeServerAttempt => true
  | .serverCloseErrorLogged => false

/-- What an endpoint handler writes on the response: nothing (the
transport owns the response), or `res.status(code).json(body)` with the
body's `error` and `message` fields. -/
inductive ResAction where
  | noResponse
  | statusJson (status : Nat) (error message : String)
deriving DecidableEq, Repr

/-- Side effects an endpoint handler can perform on the adapter or the
sink. -/
inductive EndpointEffect where
  | adapterHandleSSE
  | serverConnect
  | adapterHandleMessages
deriving DecidableEq, Repr

/-- The message logged and returned when an endpoint runs before
`onModuleInit` created the adapter. -/
def adapterNotInitializedMessage : String :=
  "SSE adapter not initialized - module may not have completed initialization"

/-- `handleSSEConnection` modelled on its observable inputs: whether the
adapter exists, whether response headers were already sent, and whether
the `handleSSE`/`connect` sequence throws (with which message). Returns
the response written and the adapter/sink operations performed. -/
def handleSSEConnection (adapterPresent headersSent : Bool)
    (connectError : Option String) : ResAction × List EndpointEffect :=
  if !adapterPresent then
    (if !headersSent then
       .statusJson 503 "Service unavailable" adapterNotInitializedMessage
     else .noResponse, [])
  else
    match connectError with
    | some msg =>
      (if !headersSent then
         .statusJson 500 "Failed to establish SSE connection" msg
       else .noResponse,
       [.adapterHandleSSE, .serverConnect])
    | none => (.noResponse, [.adapterHandleSSE, .serverConnect])

/-- `handleMessages` modelled the same way: adapter presence, header
state, and whether the adapter's message handling throws. -/
def handleMessages (adapterPresent headersSent : Bool)
    (handlingError : Option String) : ResAction × List EndpointEffect :=
  if !adapterPresent then
    (if !headersSent then
       .statusJson 503 "Service unavailable" adapterNotInitializedMessage
     else .noResponse, [])
  else
    match handlingError with
    | some msg =>
      (if !headersSent then
         .statusJson 500 "Failed to process message" msg
       else .noResponse,
       [.adapterHandleMessages])
    | none => (.noResponse, [.adapterHandleMessages])

/-- Numeric property access with the add-tool handler's expectations:
the value of key `k` when it is a number, else `0`. -/
def jsLookupNum (o : JsObj) (k : String) : Int :=
  match jsLookup o k with
  | some (.num n) => n
  | _ => 0

/-- The decorated method of the spec's example tool `add`: returns the
sum `a + b` of its two number parameters. -/
def addToolHandler (params : JsObj) : RVal :=
  .prim (.num (jsLookupNum params "a" + jsLookupNum params "b"))

/-- The decorated method of the spec's example resource `files`: returns
a content object for the one known id and `null` for every other id. -/
def filesResourceHandler (params : JsObj) : RVal :=
  match jsLookup params "id" with
  | some (.str "known") => .prim .obj
  | _ => .prim .nullV

lemma convertParameterValue_error_eq (v : PDecl) (e : McpError)
    (h : convertParameterValue v = .error e) : e = .typeError := by
  cases v with
  | str s =>
    by_cases hq : endsWithQuestionMark s <;>
      simp [convertParameterValue, callOptional, hq] at h
  | defObj t opt =>
    cases t <;> cases opt <;> simp_all [convertParameterValue, callOptional]
  | zodSchema z => simp [convertParameterValue] at h
  | plainObj => simp [convertParameterValue] at h
  | num n => simp [convertParameterValue] at h
  | boolV b => simp [convertParameterValue] at h
  | nullV => simp [convertParameterValue] at h
  | undef => simp [convertParameterValue] at h

lemma convertParametersToZod_error_eq (ps : List (String × PDecl)) (e : McpError)
    (h : convertParametersToZod ps = .error e) : e = .typeError := by
  induction ps with
  | nil => simp [convertParametersToZod] at h
  | cons kv rest ih =>
    rw [convertParametersToZod] at h
    cases hv : convertParameterValue kv.2 with
    | error e2 =>
      rw [hv] at h
      cases h
      exact convertParameterValue_error_eq kv.2 e hv
    | ok s =>
      rw [hv] at h
      cases hr : convertParametersToZod rest with
      | error e2 =>
        rw [hr] at h
        cases h
        exact ih hr
      | ok tail => rw [hr] at h; cases h

/-- C1 counterexample: normalization is not total — the
parameter-declaration value written in TS as `{ type: 42, optional:
true }` reaches the definition-object branch (it is an object with a
`type` property), its `type` is cast to a schema unchecked, and the
final `schema.optional()` call throws a `TypeError`. -/
theorem claim1_normalization_throws_counterexample :
    convertParameterValue (.defObj (.num 42) true) = .error .typeError := by
  decide

/-- C1 amended: normalization returns a validator spec without throwing
for every parameter-declaration value except a definition object whose
`type` field is neither a primitive-name string nor a validator object
and whose `optional` field is `true`; exactly on those inputs it throws
(a `TypeError` from calling `.optional()` on a non-schema). -/
theorem claim1_normalization_total_amended :
    ∀ v : PDecl, (∃ e, convertParameterValue v = .error e) ↔
      ∃ n : Int, v = .defObj (.num n) true := by
  intro v
  constructor
  · rintro ⟨e, he⟩
    cases v with
    | str s =>
      by_cases hq : endsWithQuestionMark s <;>
        simp [convertParameterValue, callOptional, hq] at he
    | defObj t opt =>
      cases t <;> cases opt <;>
        simp [convertParameterValue, callOptional] at he ⊢
    | zodSchema z => simp [convertParameterValue] at he
    | plainObj => simp [convertParameterValue] at he
    | num n => simp [convertParameterValue] at he
    | boolV b => simp [convertParameterValue] at he
    | nullV => simp [convertParameterValue] at he
    | undef => simp [convertParameterValue] at he
  · rintro ⟨n, rfl⟩
    exact ⟨.typeError, rfl⟩

/-- C4: each of the accepted declaration shapes that can describe an
optional string parameter — the `?`-suffixed name `string?`, the
definition object with `type: 'string'` and `optional: true`, the
definition object with a string validator and `optional: true`, and the
optional string validator given directly — normalizes to the optional
string validator, whose parameter spec has kind `string` and
`required = false`. -/
theorem claim4_optional_string_shapes :
    (convertParameterValue (.str "string?") = .ok (.zod (.optional .string)) ∧
     convertParameterValue (.defObj (.name "string") true) = .ok (.zod (.optional .string)) ∧
     convertParameterValue (.defObj (.zodSchema .string) true) = .ok (.zod (.optional .string)) ∧
     convertParameterValue (.zodSchema (.optional .string)) = .ok (.zod (.optional .string))) ∧
    specOfStored (.zod (.optional .string)) = some ⟨.string, false⟩ := by
  decide

/-- C2: the wrappers installed for resource and tool capabilities treat
a `null` or `undefined` handler return as a hard
handler-contract-violation error; in particular the `files` resource
(default template `files://...`) whose handler returns `null` for the
unknown id `missing` raises that error instead of returning an empty
content list. -/
theorem claim2_nullish_return_hard_error :
    (∀ name : String,
      wrapResourceResult name (.prim .nullV) = .error (.handlerContractViolation name) ∧
      wrapResourceResult name (.prim .undef) = .error (.handlerContractViolation name) ∧
      wrapToolResult name (.prim .nullV) = .error (.handlerContractViolation name) ∧
      wrapToolResult name (.prim .undef) = .error (.handlerContractViolation name)) ∧
    resourceTemplateString ⟨"files", "file store", none, none⟩ = "files://{id}" ∧
    wrapResourceResult "files" (filesResourceHandler [("id", .str "missing")]) =
      .error (.handlerContractViolation "files") := by
  refine ⟨fun name => ⟨rfl, rfl, rfl, rfl⟩, by decide, by decide⟩

/-- C3: a tool handler result that is neither an array nor an object is
wrapped into a one-element content list holding a single text entry
whose text is the string coercion of the value; in particular the `add`
tool invoked with `a = 2, b = 3` returns the single text entry `5`. -/
theorem claim3_tool_scalar_wrapping :
    (∀ p : JsPrim, p ≠ .obj → p ≠ .nullV → p ≠ .undef →
      ∀ name, wrapToolResult name (.prim p) = .ok [.textEntry (jsToString p)]) ∧
    wrapToolResult "add" (addToolHandler [("a", .num 2), ("b", .num 3)]) =
      .ok [.textEntry "5"] := by
  constructor
  · intro p _ hn hu name
    cases p <;> first | rfl | exact absurd rfl hn | exact absurd rfl hu
  · decide

/-- C3 witness: the general wrapping statement applied to the concrete
non-array, non-object return value `"abc"`. -/
theorem claim3_tool_scalar_wrapping_witness :
    wrapToolResult "echo" (.prim (.str "abc")) = .ok [.textEntry "abc"] :=
  claim3_tool_scalar_wrapping.1 (.str "abc") (by decide) (by decide) (by decide) "echo"

/-- C9: after the nullish guard, the tool wrapper's decision is based
solely on array-ness — every non-array result (a plain object included)
becomes a one-element text entry holding its string coercion, so an
object result becomes the text `[object Object]`, while an array result
is passed through unchanged as the content list. -/
theorem claim9_tool_wrapping_array_only :
    (∀ p : JsPrim, p ≠ .nullV → p ≠ .undef →
      ∀ name, wrapToolResult name (.prim p) = .ok [.textEntry (jsToString p)]) ∧
    (∀ name es, wrapToolResult name (.arr es) = .ok (es.map ContentVal.passthrough)) ∧
    (∀ name, wrapToolResult name (.prim .obj) = .ok [.textEntry "[object Object]"]) := by
  refine ⟨fun p hn hu name => ?_, fun name es => rfl, fun name => rfl⟩
  cases p <;> first | rfl | exact absurd rfl hn | exact absurd rfl hu

/-- C9 witness: the non-array statement applied to a plain object
result, which is string-coerced rather than passed through. -/
theorem claim9_tool_wrapping_array_only_witness :
    wrapToolResult "info" (.prim .obj) = .ok [.textEntry (jsToString .obj)] :=
  claim9_tool_wrapping_array_only.1 .obj (by decide) (by decide) "info"

/-- C10: the resource wrapper's `if (!result)` guard rejects every
falsy return value — `0`, the empty string, `false` and `NaN` included
— with the handler-contract-violation error, and returns a contents
list holding exactly the returned value for every truthy non-array
return. -/
theorem claim10_resource_falsy_rejection :
    (∀ (name : String) (v : RVal), jsFalsy v = true →
      wrapResourceResult name v = .error (.handlerContractViolation name)) ∧
    (jsFalsy (.prim (.num 0)) = true ∧ jsFalsy (.prim (.str "")) = true ∧
     jsFalsy (.prim (.boolV false)) = true ∧ jsFalsy (.prim .nan) = true) ∧
    (∀ (name : String) (p : JsPrim), jsFalsy (.prim p) = false →
      wrapResourceResult name (.prim p) = .ok [p]) := by
  refine ⟨fun name v h => ?_, by decide, fun name p h => ?_⟩
  · simp [wrapResourceResult, h]
  · simp [wrapResourceResult, h]

/-- C10 witness: the falsy branch at the concrete return value `0` and
the truthy branch at the concrete return value `"x"`. -/
theorem claim10_resource_falsy_rejection_witness :
    wrapResourceResult "files" (.prim (.num 0)) = .error (.handlerContractViolation "files") ∧
    wrapResourceResult "files" (.prim (.str "x")) = .ok [.str "x"] :=
  ⟨claim10_resource_falsy_rejection.1 "files" (.prim (.num 0)) (by decide),
   claim10_resource_falsy_rejection.2.2 "files" (.str "x") (by decide)⟩

lemma jsLookup_cons (x : String × JsPrim) (l : JsObj) (k : String) :
    jsLookup (x :: l) k = if x.1 == k then some x.2 else jsLookup l k := by
  cases hp : (x.1 == k) <;> simp [jsLookup, List.find?_cons, hp]

lemma jsLookup_append (x y : JsObj) (k : String) :
    jsLookup (x ++ y) k = (jsLookup x k).or (jsLookup y k) := by
  unfold jsLookup
  rw [List.find?_append]
  cases List.find? (fun kv : String × JsPrim => kv.1 == k) x <;> simp [Option.or]

lemma jsLookup_map_subst (b a : JsObj) (k : String) :
    jsLookup
      (a.map (fun kv =>
        match jsLookup b kv.1 with
        | some v => (kv.1, v)
        | none => kv)) k =
      match jsLookup a k with
      | some w =>
        match jsLookup b k with
        | some v => some v
        | none => some w
      | none => none := by
  induction a with
  | nil => rfl
  | cons kv a ih =>
    rw [List.map_cons, jsLookup_cons, jsLookup_cons]
    cases hk : (kv.1 == k) with
    | true =>
      have hk2 : kv.1 = k := eq_of_beq hk
      cases hb : jsLookup b kv.1 <;> simp [hk, hk2, hb, hk2 ▸ hb]
    | false =>
      cases hb : jsLookup b kv.1 <;> simp [hk, hb, ih]

lemma jsLookup_filter_keeps (a b : JsObj) (k : String)
    (ha : jsLookup a k = none) :
    jsLookup (b.filter (fun kv => (jsLookup a kv.1).isNone)) k = jsLookup b k := by
  induction b with
  | nil => rfl
  | cons kv b ih =>
    rw [List.filter_cons]
    cases hk : (kv.1 == k) with
    | true =>
      have hk2 : kv.1 = k := eq_of_beq hk
      have hq : ((jsLookup a kv.1).isNone : Bool) = true := by
        rw [hk2, ha]; rfl
      rw [if_pos hq, jsLookup_cons, jsLookup_cons, hk]
      simp
    | false =>
      cases hq : ((jsLookup a kv.1).isNone : Bool) <;>
        simp [jsLookup_cons, hk, ih]

lemma jsLookup_spreadMerge (a b : JsObj) (k : String) :
    jsLookup (spreadMerge a b) k = (jsLookup b k).or (jsLookup a k) := by
  unfold spreadMerge
  rw [jsLookup_append, jsLookup_map_subst]
  cases ha : jsLookup a k with
  | none =>
    rw [jsLookup_filter_keeps a b k ha]
    cases hb : jsLookup b k <;> simp [Option.or]
  | some w =>
    cases hb : jsLookup b k <;> simp [Option.or]

/-- C5: the prompt wrapper returns the shallow merge of the
caller-supplied params with the fields the decorated method returned;
on every key present in both the method-returned value wins, and a key
the method did not return keeps its caller-supplied value. -/
theorem claim5_prompt_merge_precedence :
    ∀ (params dyn : JsObj) (k : String),
      ((jsLookup dyn k).isSome = true →
        jsLookup (wrapPromptResult (some dyn) params) k = jsLookup dyn k) ∧
      (jsLookup dyn k = none →
        jsLookup (wrapPromptResult (some dyn) params) k = jsLookup params k) := by
  intro params dyn k
  constructor
  · intro h
    unfold wrapPromptResult
    rw [Option.getD_some, jsLookup_spreadMerge]
    cases hb : jsLookup dyn k with
    | some v => simp [Option.or]
    | none => rw [hb] at h; simp at h
  · intro h
    unfold wrapPromptResult
    rw [Option.getD_some, jsLookup_spreadMerge, h]
    simp [Option.or]

/-- C5 witness: the precedence statement at a concrete merge — the key
`style` is supplied by the caller and also returned by the method, and
the method-returned value wins. -/
theorem claim5_prompt_merge_precedence_witness :
    jsLookup
      (wrapPromptResult (some [("style", .str "dynamic")])
        [("style", .str "caller"), ("topic", .str "news")]) "style" =
      some (.str "dynamic") :=
  ((claim5_prompt_merge_precedence
      [("style", .str "caller"), ("topic", .str "news")]
      [("style", .str "dynamic")] "style").1 (by decide)).trans (by decide)

/-- C6 counterexample: a resource capability whose name is the empty
string registers without any error — `registerResource` performs no
name validation, so registration does not fail at registration time as
the claim requires (the computed default template is the string
`://...`). -/
theorem claim6_empty_name_counterexample :
    registerResource ⟨"", "empty-name resource", none, none⟩ = .ok ("://{id}", []) := by
  decide

/-- C6 amended: registration raises the structural
invalid-capability-definition error exactly for prompts whose template
is empty or whitespace-only; neither `registerResource` nor
`registerTool` (nor `registerPrompt` on any other ground) ever raises
it, and in particular an empty capability name is not rejected. -/
theorem claim6_registration_validation_amended :
    (∀ m : IPromptMeta,
      (∃ n, registerPrompt m = .error (.invalidCapabilityDefinition n)) ↔
        jsTrim m.template = "") ∧
    (∀ (m : IResourceMeta) (n : String),
      registerResource m ≠ .error (.invalidCapabilityDefinition n)) ∧
    (∀ (m : IToolMeta) (n : String),
      registerTool m ≠ .error (.invalidCapabilityDefinition n)) := by
  refine ⟨fun m => ⟨?_, ?_⟩, fun m n h => ?_, fun m n h => ?_⟩
  · rintro ⟨n, hn⟩
    cases hc : (m.template == "" || jsTrim m.template == "") with
    | true =>
      rcases Bool.or_eq_true_iff.mp hc with h1 | h1
      · have h2 : m.template = "" := eq_of_beq h1
        rw [h2]
        decide
      · exact eq_of_beq h1
    | false =>
      cases hp : m.parameters with
      | none => simp [registerPrompt, hc, hp] at hn
      | some ps =>
        cases hcv : convertParametersToZod ps with
        | error e =>
          have he := convertParametersToZod_error_eq ps e hcv
          subst he
          simp [registerPrompt, hc, hp, hcv] at hn
        | ok tail => simp [registerPrompt, hc, hp, hcv] at hn
  · intro h
    refine ⟨m.name, ?_⟩
    have hc : (m.template == "" || jsTrim m.template == "") = true := by
      rw [Bool.or_eq_true_iff]
      right
      exact beq_iff_eq.mpr h
    simp [registerPrompt, hc]
  · cases hp : m.parameters with
    | none => simp [registerResource, hp] at h
    | some ps =>
      cases hc : convertParametersToZod ps with
      | error e =>
        have he := convertParametersToZod_error_eq ps e hc
        subst he
        simp [registerResource, hp, hc, Except.map] at h
      | ok tail => simp [registerResource, hp, hc, Except.map] at h
  · cases hp : m.parameters with
    | none => simp [registerTool, hp] at h
    | some ps =>
      cases hc : convertParametersToZod ps with
      | error e =>
        have he := convertParametersToZod_error_eq ps e hc
        subst he
        simp [registerTool, hp, hc] at h
      | ok tail => simp [registerTool, hp, hc] at h

/-- C6 witness: the amended statement at concrete inputs — a prompt
with a whitespace-only template is rejected with the structural error,
and a resource with an empty name is not rejected with it. -/
theorem claim6_registration_validation_amended_witness :
    (∃ n, registerPrompt ⟨"greet", "a prompt", "  ", none⟩ =
      .error (.invalidCapabilityDefinition n)) ∧
    registerResource ⟨"", "empty-name resource", none, none⟩ ≠
      .error (.invalidCapabilityDefinition "") :=
  ⟨(claim6_registration_validation_amended.1 ⟨"greet", "a prompt", "  ", none⟩).mpr
      (by decide),
   claim6_registration_validation_amended.2.1 ⟨"", "empty-name resource", none, none⟩ ""⟩

lemma closeTransportsLoop_filter_attempts (start : Nat) (fs : List Bool) :
    (closeTransportsLoop start fs).filter isAttempt =
      (List.range fs.length).map (fun j => SEvent.closeTransportAttempt (start + j)) := by
  induction fs generalizing start with
  | nil => rfl
  | cons f fs ih =>
    have h1 : ∀ j, start + 1 + j = start + (j + 1) := by omega
    cases f <;>
      simp [closeTransportsLoop, List.filter_append, isAttempt, ih,
        List.range_succ_eq_map, List.map_map, Function.comp, Nat.succ_eq_add_one, h1]

lemma mem_closeTransportsLoop_log (start : Nat) (fs : List Bool) (i : Nat)
    (h : fs[i]? = some true) :
    SEvent.transportCloseErrorLogged (start + i) ∈ closeTransportsLoop start fs := by
  induction fs generalizing start i with
  | nil => simp at h
  | cons f fs ih =>
    cases i with
    | zero =>
      simp at h
      subst h
      simp [closeTransportsLoop]
    | succ i =>
      simp at h
      have hmem := ih (start + 1) i h
      have e : start + 1 + i = start + (i + 1) := by omega
      rw [e] at hmem
      cases f <;> simp [closeTransportsLoop] <;> tauto

/-- C7: for every failure configuration, the close operations attempted
by `onModuleDestroy` are, in order: the stdio transport (when one was
created), then every active SSE transport, then the MCP server — the
attempted sequence does not depend on which closes fail — and every
failing step logs its error. -/
theorem claim7_shutdown_order :
    ∀ c : ShutdownConfig,
      ((onModuleDestroy c).filter isAttempt =
        (if c.stdioPresent then [SEvent.closeStdioAttempt] else []) ++
        (if c.adapterPresent && !c.getTransportsFails then
          (List.range c.transportCloseFails.length).map SEvent.closeTransportAttempt
        else []) ++
        [SEvent.closeServerAttempt]) ∧
      (c.stdioPresent = true → c.stdioCloseFails = true →
        SEvent.stdioCloseErrorLogged ∈ onModuleDestroy c) ∧
      (∀ i, c.transportCloseFails[i]? = some true → c.adapterPresent = true →
        c.getTransportsFails = false →
        SEvent.transportCloseErrorLogged i ∈ onModuleDestroy c) ∧
      (c.adapterPresent = true → c.getTransportsFails = true →
        SEvent.adapterCleanupErrorLogged ∈ onModuleDestroy c) ∧
      (c.serverCloseFails = true →
        SEvent.serverCloseErrorLogged ∈ onModuleDestroy c) := by
  rintro ⟨sp, sf, ap, gf, tfs, svf⟩
  refine ⟨?_, ?_, ?_, ?_, ?_⟩
  · cases sp <;> cases sf <;> cases ap <;> cases gf <;> cases svf <;>
      simp [onModuleDestroy, List.filter_append, isAttempt,
        closeTransportsLoop_filter_attempts, Nat.zero_add]
  · rintro rfl rfl
    simp [onModuleDestroy]
  · intro i hi hap hgf
    subst hap; subst hgf
    have hmem := mem_closeTransportsLoop_log 0 tfs i hi
    rw [Nat.zero_add] at hmem
    cases sp <;> cases sf <;> cases svf <;>
      simp [onModuleDestroy] <;> tauto
  · rintro rfl rfl
    cases sp <;> cases sf <;> cases svf <;> simp [onModuleDestroy]
  · rintro rfl
    cases sp <;> cases sf <;> cases ap <;> cases gf <;> simp [onModuleDestroy]

/-- C7 witness: the logging statements at a concrete configuration in
which every close operation fails: each step's error is in the trace,
so each later step was still reached. -/
theorem claim7_shutdown_order_witness :
    SEvent.stdioCloseErrorLogged ∈ onModuleDestroy ⟨true, true, true, false, [true], true⟩ ∧
    SEvent.transportCloseErrorLogged 0 ∈ onModuleDestroy ⟨true, true, true, false, [true], true⟩ ∧
    SEvent.serverCloseErrorLogged ∈ onModuleDestroy ⟨true, true, true, false, [true], true⟩ :=
  ⟨(claim7_shutdown_order _).2.1 rfl rfl,
   (claim7_shutdown_order _).2.2.1 0 (by decide) rfl rfl,
   (claim7_shutdown_order _).2.2.2.2 rfl⟩

/-- C8: when either endpoint handler runs while the SSE adapter has not
been created yet and response headers have not been sent, it writes
status 503 with a JSON body carrying an `error` and a `message` field,
and performs no operation on the adapter, a transport, or the server —
regardless of how the rest of the request would have behaved. -/
theorem claim8_uninitialized_503 :
    ∀ connectError handlingError : Option String,
      handleSSEConnection false false connectError =
        (.statusJson 503 "Service unavailable" adapterNotInitializedMessage, []) ∧
      handleMessages false false handlingError =
        (.statusJson 503 "Service unavailable" adapterNotInitializedMessage, []) := by
  intro c h
  exact ⟨rfl, rfl⟩

end NestjsMcp
